import Mathlib

/-!
Shallow embedding of the meteor atmospheric-entry simulator
(`constants.py`, `meteor.py`, `atmosphere.py`, `physics.py`,
`fragmentation.py`, and the physics part of `main.py`), with theorems
settling the behavioural claims about it.

Python floats are modelled as real numbers; numpy 3-arrays as `Vec3`;
the RK4 6-vector `[x, y, z, vx, vy, vz]` as `RKState`.  A pseudo-random
generator is modelled by the sequence of values its successive draws
return.
-/

noncomputable section

/-- A 3-component vector, modelling a numpy array of length 3. -/
structure Vec3 where
  x : ℝ
  y : ℝ
  z : ℝ


namespace Vec3

@[ext] theorem ext_xyz {a b : Vec3} (hx : a.x = b.x) (hy : a.y = b.y)
    (hz : a.z = b.z) : a = b := by
  cases a; cases b; simp_all

/-- Componentwise vector addition. -/
def add (a b : Vec3) : Vec3 := ⟨a.x + b.x, a.y + b.y, a.z + b.z⟩

/-- Scalar multiplication `c * v`. -/
def smul (c : ℝ) (v : Vec3) : Vec3 := ⟨c * v.x, c * v.y, c * v.z⟩

/-- The zero vector, `np.zeros(3)`. -/
def zero : Vec3 := ⟨0, 0, 0⟩

/-- Componentwise negation `-v`. -/
def neg (v : Vec3) : Vec3 := ⟨-v.x, -v.y, -v.z⟩

/-- Componentwise division of a vector by a scalar, `v / c`. -/
def divs (v : Vec3) (c : ℝ) : Vec3 := ⟨v.x / c, v.y / c, v.z / c⟩

/-- Euclidean norm, `np.linalg.norm`. -/
def norm (v : Vec3) : ℝ := Real.sqrt (v.x ^ 2 + v.y ^ 2 + v.z ^ 2)

theorem norm_smul (c : ℝ) (v : Vec3) : (smul c v).norm = |c| * v.norm := by
  unfold norm smul
  have h : (c * v.x) ^ 2 + (c * v.y) ^ 2 + (c * v.z) ^ 2
      = c ^ 2 * (v.x ^ 2 + v.y ^ 2 + v.z ^ 2) := by ring
  rw [h, Real.sqrt_mul (sq_nonneg c), Real.sqrt_sq_eq_abs]

/-- The norm of a purely vertical vector is the absolute vertical speed. -/
theorem norm_vert (vy : ℝ) : norm ⟨0, vy, 0⟩ = |vy| := by
  unfold norm
  have h : (0 : ℝ) ^ 2 + vy ^ 2 + 0 ^ 2 = vy ^ 2 := by ring
  rw [h, Real.sqrt_sq_eq_abs]

end Vec3

-- ===========================================================================
-- constants.py
-- ===========================================================================

/-- Gravitational constant `G = 6.674e-11`. -/
def Gconst : ℝ := 6.674e-11

/-- Earth mass `M_EARTH = 5.972e24`. -/
def M_EARTH : ℝ := 5.972e24

/-- Surface gravity `g = 9.81`. -/
def gSurf : ℝ := 9.81

/-- Sea-level air density `RHO_0 = 1.225`. -/
def RHO_0 : ℝ := 1.225

/-- Atmospheric scale height `H_SCALE = 8500` metres. -/
def H_SCALE : ℝ := 8500

/-- Drag coefficient `DRAG_COEFFICIENT = 0.8`. -/
def DRAG_COEFFICIENT : ℝ := 0.8

/-- Default mass `DEFAULT_METEOR_MASS = 0.01` kg. -/
def DEFAULT_METEOR_MASS : ℝ := 0.01

/-- Default radius `DEFAULT_METEOR_RADIUS = 0.02` m. -/
def DEFAULT_METEOR_RADIUS : ℝ := 0.02

/-- Default material density `DEFAULT_METEOR_DENSITY = 3000`. -/
def DEFAULT_METEOR_DENSITY : ℝ := 3000

/-- Ablation coefficient `ABLATION_COEFF = 3.5e-9`. -/
def ABLATION_COEFF : ℝ := 3.5e-9

/-- Burnup mass floor `BURNUP_MIN_MASS = 5e-6` kg. -/
def BURNUP_MIN_MASS : ℝ := 5e-6

/-- Fixed physics timestep `DT = 0.01` s. -/
def DT : ℝ := 0.01

/-- Trail capacity `MAX_TRAIL_LENGTH = 100`. -/
def MAX_TRAIL_LENGTH : ℕ := 100

-- ===========================================================================
-- meteor.py : class Meteor
-- ===========================================================================

/-- The `Meteor` body state.  Fields `pos`, `vel`, `mass`, `radius`, `area`,
`alive` and `trail` are those set in `Meteor.__init__` of `meteor.py`.
Fields `density` and `fragmented` are modelled from the spec's Body data
model (`density`: constant per body, inherited by fragments; `fragmented`:
boolean latch): the full `meteor.py` that `fragmentation.py` and `main.py`
call into (it accepts a `density` constructor argument and supplies
`update_ablation` and `_recompute_area`) is not among the sources here. -/
structure Meteor where
  pos : Vec3
  vel : Vec3
  mass : ℝ
  radius : ℝ
  area : ℝ
  density : ℝ
  alive : Bool
  fragmented : Bool
  trail : List Vec3


namespace Meteor

/-- Constructor `Meteor.__init__(position, velocity, mass, radius, density)`:
stores position/velocity, sets `area = π·radius²`, `alive = True`,
an empty trail, and (modelled from the spec) the material density and a
cleared `fragmented` latch. -/
def init (position velocity : Vec3) (mass radius density : ℝ) : Meteor :=
  { pos := position
    vel := velocity
    mass := mass
    radius := radius
    area := Real.pi * radius ^ 2
    density := density
    alive := true
    fragmented := false
    trail := [] }

/-- Accessor `get_altitude`: the y-coordinate. -/
def get_altitude (m : Meteor) : ℝ := m.pos.y

/-- Accessor `get_speed`: magnitude of the velocity vector. -/
def get_speed (m : Meteor) : ℝ := m.vel.norm

/-- Method `update_trail`: append the current position, evicting the oldest
point when the trail exceeds `MAX_TRAIL_LENGTH`. -/
def update_trail (m : Meteor) : Meteor :=
  let t := m.trail ++ [m.pos]
  { m with trail := if MAX_TRAIL_LENGTH < t.length then t.drop 1 else t }

/-- Modelled from the spec: `_recompute_area` of the full `meteor.py`
(absent from the sources; called by `fragmentation.py`) restores the
invariant `area = π·radius²`. -/
def recompute_area (m : Meteor) : Meteor :=
  { m with area := Real.pi * m.radius ^ 2 }

/-- Modelled from the spec: `update_ablation(rho_air, dt)` of the full
`meteor.py` (absent from the sources; called by `main.py`), spec §4.4
AblationModel.  If the body is dead or slower than 1 m/s it is a no-op
returning 0 mass lost.  Otherwise `dm = k_abl·A·ρ_air·|v|³·dt` clamped
non-negative, `mass = max(0, mass − dm)`; if the new mass is at most
`BURNUP_MIN_MASS` the body burns up (`mass = 0`, `alive = False`, radius
untouched), else the radius is recomputed from the new mass at constant
material density, floored at a small positive epsilon, and the area from
the radius.  Returns the updated body and the mass lost. -/
def update_ablation (b : Meteor) (rho_air dt : ℝ) : Meteor × ℝ :=
  if b.alive = false ∨ b.get_speed < 1 then (b, 0)
  else
    let dm := max 0 (ABLATION_COEFF * b.area * rho_air * b.get_speed ^ 3 * dt)
    let newMass := max 0 (b.mass - dm)
    if newMass ≤ BURNUP_MIN_MASS then
      ({ b with mass := 0, alive := false }, b.mass)
    else
      let r := max 1e-4 ((3 * newMass / (4 * Real.pi * b.density)) ^ ((1 : ℝ) / 3))
      ({ b with mass := newMass, radius := r, area := Real.pi * r ^ 2 },
       b.mass - newMass)

end Meteor

-- ===========================================================================
-- atmosphere.py : class Atmosphere
-- ===========================================================================

/-- State of `Atmosphere`: sea-level density and scale height.  (`physics.py`'s own
test mutates `rho_0`, so both are genuine per-instance state.) -/
structure Atmosphere where
  rho_0 : ℝ
  H : ℝ


namespace Atmosphere

/-- Constructor `Atmosphere.__init__`: standard parameters `RHO_0`, `H_SCALE`. -/
def std : Atmosphere := ⟨RHO_0, H_SCALE⟩

/-- Method `Atmosphere.density(altitude)`: sea-level density below the datum,
exponential decay above it. -/
def density (atm : Atmosphere) (altitude : ℝ) : ℝ :=
  if altitude < 0 then atm.rho_0
  else atm.rho_0 * Real.exp (-altitude / atm.H)

/-- Method `Atmosphere.drag_force(meteor, altitude)`: `½·ρ·|v|²·Cd·A` opposite
the velocity, zero below the `1e-6` speed guard. -/
def drag_force (atm : Atmosphere) (m : Meteor) (altitude : ℝ) : Vec3 :=
  let rho := atm.density altitude
  let v := m.vel
  let speed := v.norm
  if speed < 1e-6 then Vec3.zero
  else
    let drag_magnitude := 0.5 * rho * speed ^ 2 * DRAG_COEFFICIENT * m.area
    let drag_direction := Vec3.divs v.neg speed
    Vec3.smul drag_magnitude drag_direction

theorem density_std_pos (h : ℝ) : 0 < density std h := by
  unfold density std RHO_0 H_SCALE
  split
  · norm_num
  · positivity

end Atmosphere

-- ===========================================================================
-- physics.py : class PhysicsEngine
-- ===========================================================================

/-- The RK4 6-vector state `[x, y, z, vx, vy, vz]`, split as the code
unpacks it: `state[0:3]` and `state[3:6]`. -/
structure RKState where
  pos : Vec3
  vel : Vec3

namespace RKState

@[ext] theorem ext_pv {a b : RKState} (hp : a.pos = b.pos)
    (hv : a.vel = b.vel) : a = b := by
  cases a; cases b; simp_all

/-- Componentwise addition of 6-vectors. -/
def add (a b : RKState) : RKState := ⟨a.pos.add b.pos, a.vel.add b.vel⟩

/-- Scalar multiple of a 6-vector. -/
def smul (a : RKState) (c : ℝ) : RKState := ⟨Vec3.smul c a.pos, Vec3.smul c a.vel⟩

end RKState

/-- Engine state `PhysicsEngine(use_simple_gravity)`. -/
structure PhysicsEngine where
  use_simple_gravity : Bool

namespace PhysicsEngine

/-- The engine `main.py` constructs: `PhysicsEngine(use_simple_gravity=True)`. -/
def simple : PhysicsEngine := ⟨true⟩

/-- Method `gravity_force(meteor)`: constant `(0, -m·g, 0)` in simple mode,
inverse-square toward the origin otherwise. -/
def gravity_force (eng : PhysicsEngine) (m : Meteor) : Vec3 :=
  if eng.use_simple_gravity then ⟨0, -(m.mass * gSurf), 0⟩
  else
    let r := m.pos.norm
    let F_mag := Gconst * M_EARTH * m.mass / r ^ 2
    Vec3.smul F_mag (Vec3.divs m.pos.neg r)

/-- The body of `net_force(meteor, atmosphere)` with the altitude it reads
through `meteor.get_altitude()` made explicit: gravity plus drag. -/
def net_force_at (eng : PhysicsEngine) (m : Meteor) (atm : Atmosphere)
    (altitude : ℝ) : Vec3 :=
  (eng.gravity_force m).add (atm.drag_force m altitude)

/-- Method `net_force(meteor, atmosphere)`: on an ordinary meteor,
`meteor.get_altitude()` reads the meteor's own y-coordinate. -/
def net_force (eng : PhysicsEngine) (m : Meteor) (atm : Atmosphere) : Vec3 :=
  eng.net_force_at m atm m.get_altitude

/-- Method `derivative(state, meteor, atmosphere)`.  The source builds a
`temp_meteor` carrying the candidate `pos`/`vel` and the real meteor's
`mass`/`radius`/`area`, but then assigns
`temp_meteor.get_altitude = meteor.get_altitude` — the *bound method of
the original meteor* — so the altitude `net_force` passes to
`drag_force` is `meteor.pos[1]`, the pre-step altitude, not the
candidate's `state[1]`.  The acceleration is `F / meteor.mass`. -/
def derivative (eng : PhysicsEngine) (state : RKState) (m : Meteor)
    (atm : Atmosphere) : RKState :=
  let temp : Meteor := { m with pos := state.pos, vel := state.vel }
  let F := eng.net_force_at temp atm m.get_altitude
  let accel := Vec3.divs F m.mass
  ⟨state.vel, accel⟩

/-- Method `rk4_step(meteor, atmosphere, dt)`: classical fixed-step RK4 on the
6-vector, writing the new position and velocity back into the meteor.
There is no `alive` guard in this function. -/
def rk4_step (eng : PhysicsEngine) (m : Meteor) (atm : Atmosphere)
    (dt : ℝ) : Meteor :=
  let state : RKState := ⟨m.pos, m.vel⟩
  let k1 := eng.derivative state m atm
  let k2 := eng.derivative (state.add (k1.smul (dt / 2))) m atm
  let k3 := eng.derivative (state.add (k2.smul (dt / 2))) m atm
  let k4 := eng.derivative (state.add (k3.smul dt)) m atm
  let new_state := state.add ((((k1.add (k2.smul 2)).add (k3.smul 2)).add k4).smul (dt / 6))
  { m with pos := new_state.pos, vel := new_state.vel }

end PhysicsEngine

-- ===========================================================================
-- fragmentation.py
-- ===========================================================================

/-- Two-argument arctangent `math.atan2(y, x)`. -/
def atan2 (y x : ℝ) : ℝ :=
  if 0 < x then Real.arctan (y / x)
  else if x < 0 then
    (if 0 ≤ y then Real.arctan (y / x) + Real.pi
     else Real.arctan (y / x) - Real.pi)
  else
    (if 0 < y then Real.pi / 2 else if y < 0 then -(Real.pi / 2) else 0)

/-- Function `fragment_simple(parent, rng, n)`.  The generator is modelled by the
values its draws return: `ws i` is the `i`-th `rng.random()` weight draw,
`uAng i` the angular offset drawn by `rng.uniform(-spread, spread)` for
child `i`, and `uSpd i` the jitter drawn by `rng.uniform(-0.06, 0.06)`.
If `parent.mass ≤ 0` it returns no children and touches nothing.
Otherwise the parent keeps `0.55` of its mass (radius and area
recomputed), and the remaining mass is split among `n` children in
proportion to the normalised weights, each child a fresh `Meteor` at the
parent's position with a perturbed velocity and the parent's material
density.  Returns the mutated parent together with the child list. -/
def fragment_simple (parent : Meteor) (n : ℕ) (ws uAng uSpd : Fin n → ℝ) :
    Meteor × List Meteor :=
  if parent.mass ≤ 0 then (parent, [])
  else
    let keep_frac : ℝ := 0.55
    let child_total := parent.mass * (1 - keep_frac)
    let pmass := parent.mass * keep_frac
    let pradius := max 1e-4 ((3 * pmass / (4 * Real.pi * parent.density)) ^ ((1 : ℝ) / 3))
    let parent' := Meteor.recompute_area { parent with mass := pmass, radius := pradius }
    let wsum := ∑ i, ws i
    let masses : Fin n → ℝ := fun i => ws i / wsum * child_total
    let vx0 := parent.vel.x
    let vy0 := parent.vel.y
    let sp0 := Real.sqrt (vx0 ^ 2 + vy0 ^ 2) + 1e-9
    let base_ang := atan2 vy0 vx0
    let frags := List.ofFn fun i =>
      let ang := base_ang + uAng i
      let sp := sp0 * (1 + uSpd i)
      let vx := Real.cos ang * sp
      let vy := Real.sin ang * sp
      let r := max 1e-4 ((3 * masses i / (4 * Real.pi * parent.density)) ^ ((1 : ℝ) / 3))
      Meteor.init parent.pos ⟨vx, vy, 0⟩ (masses i) r parent.density
    (parent', frags)

-- ===========================================================================
-- main.py : run_simulation, per-body physics tick and fragmentation policy
-- ===========================================================================

/-- The per-body work of one physics sub-step of `run_simulation`
(main.py lines 221–231): a dead body is skipped untouched; a body at or
below the ground is marked dead and otherwise untouched; a live airborne
body is integrated by `rk4_step`, ablated at the local density (altitude
clamped at zero), and its trail extended. -/
def sim_tick (eng : PhysicsEngine) (atm : Atmosphere) (dt : ℝ)
    (m : Meteor) : Meteor :=
  if m.alive = false then m
  else if m.get_altitude ≤ 0 then { m with alive := false }
  else
    let m1 := eng.rk4_step m atm dt
    let rho := atm.density (max 0 m1.get_altitude)
    let m2 := (m1.update_ablation rho dt).1
    m2.update_trail

/-- The fragmentation policy of `run_simulation` (main.py lines 233–240):
fragmentation fires exactly when the run-level `fragment_done` flag is
still clear and the trigger condition (main meteor alive, hot and low
enough) holds; firing sets the flag.  Returns the new flag and whether
fragmentation fired this sub-step. -/
def frag_trigger_step (done : Bool) (cond : Bool) : Bool × Bool :=
  (done || (!done && cond), !done && cond)

/-- How many times the policy fires over a run whose successive trigger
conditions are `conds`, starting from flag state `done`. -/
def frag_fire_count (done : Bool) : List Bool → ℕ
  | [] => 0
  | c :: rest =>
      (if (frag_trigger_step done c).2 then 1 else 0) +
        frag_fire_count (frag_trigger_step done c).1 rest

-- ===========================================================================
-- Theorems for the claims
-- ===========================================================================

/-- Claim C6: for the standard atmosphere, `density(h) = ρ₀·e^(−h/H)` for
every altitude `h ≥ 0`, with `density(0) = ρ₀` exactly; density is
strictly decreasing on non-negative altitudes; and `density(h) = ρ₀`
exactly for every `h < 0`. -/
theorem C6_density_profile :
    (∀ h : ℝ, 0 ≤ h → Atmosphere.std.density h = RHO_0 * Real.exp (-h / H_SCALE)) ∧
    Atmosphere.std.density 0 = RHO_0 ∧
    (∀ h₁ h₂ : ℝ, 0 ≤ h₁ → h₁ < h₂ →
      Atmosphere.std.density h₂ < Atmosphere.std.density h₁) ∧
    (∀ h : ℝ, h < 0 → Atmosphere.std.density h = RHO_0) := by
  refine ⟨?_, ?_, ?_, ?_⟩
  · intro h hh
    unfold Atmosphere.density Atmosphere.std
    rw [if_neg (not_lt.mpr hh)]
  · unfold Atmosphere.density Atmosphere.std
    rw [if_neg (lt_irrefl 0)]
    norm_num
  · intro h₁ h₂ hh₁ hlt
    unfold Atmosphere.density Atmosphere.std
    rw [if_neg (not_lt.mpr hh₁), if_neg (not_lt.mpr (le_trans hh₁ hlt.le))]
    have hexp : Real.exp (-h₂ / H_SCALE) < Real.exp (-h₁ / H_SCALE) := by
      apply Real.exp_lt_exp.mpr
      unfold H_SCALE
      linarith
    have : (0 : ℝ) < RHO_0 := by unfold RHO_0; norm_num
    exact mul_lt_mul_of_pos_left hexp this
  · intro h hh
    unfold Atmosphere.density Atmosphere.std
    rw [if_pos hh]

/-- Closed instance of `C6_density_profile` at concrete altitudes. -/
theorem C6_density_profile_witness :
    Atmosphere.std.density (-1) = RHO_0 ∧
    Atmosphere.std.density 8500 < Atmosphere.std.density 0 :=
  ⟨C6_density_profile.2.2.2 (-1) (by norm_num),
   C6_density_profile.2.2.1 0 8500 (by norm_num) (by norm_num)⟩

/-- Claim C8: `fragment_simple` on a parent with non-positive mass returns
an empty child list and the parent itself, completely unchanged. -/
theorem C8_fragment_nonpositive_mass_noop (p : Meteor) (n : ℕ)
    (ws uAng uSpd : Fin n → ℝ) (hm : p.mass ≤ 0) :
    fragment_simple p n ws uAng uSpd = (p, []) := by
  unfold fragment_simple
  rw [if_pos hm]

/-- Closed instance of `C8_fragment_nonpositive_mass_noop` on a
zero-mass body. -/
theorem C8_fragment_noop_witness :
    fragment_simple (Meteor.init ⟨0, 1000, 0⟩ ⟨0, -50, 0⟩ 0 0.01 3000) 5
        (fun _ => 1) (fun _ => 0) (fun _ => 0)
      = (Meteor.init ⟨0, 1000, 0⟩ ⟨0, -50, 0⟩ 0 0.01 3000, []) :=
  C8_fragment_nonpositive_mass_noop _ 5 _ _ _ le_rfl

/-- Claim C10: `rk4_step` with `dt = 0` leaves position and velocity of a
positive-mass meteor exactly unchanged, for any engine and atmosphere. -/
theorem C10_rk4_zero_dt (eng : PhysicsEngine) (m : Meteor)
    (atm : Atmosphere) (hm : 0 < m.mass) :
    (eng.rk4_step m atm 0).pos = m.pos ∧ (eng.rk4_step m atm 0).vel = m.vel := by
  unfold PhysicsEngine.rk4_step
  constructor <;>
    · ext <;> simp [RKState.add, RKState.smul, Vec3.add, Vec3.smul]

/-- Closed instance of `C10_rk4_zero_dt` on the default entry body. -/
theorem C10_rk4_zero_dt_witness :
    (PhysicsEngine.simple.rk4_step
        (Meteor.init ⟨0, 120000, 0⟩ ⟨14142, -14142, 0⟩ 0.01 0.02 3000)
        Atmosphere.std 0).pos
      = (Meteor.init ⟨0, 120000, 0⟩ ⟨14142, -14142, 0⟩ 0.01 0.02 3000).pos ∧
    (PhysicsEngine.simple.rk4_step
        (Meteor.init ⟨0, 120000, 0⟩ ⟨14142, -14142, 0⟩ 0.01 0.02 3000)
        Atmosphere.std 0).vel
      = (Meteor.init ⟨0, 120000, 0⟩ ⟨14142, -14142, 0⟩ 0.01 0.02 3000).vel :=
  C10_rk4_zero_dt PhysicsEngine.simple _ Atmosphere.std
    (by norm_num [Meteor.init])

/-- Claim C1: the per-tick ablation update on a live body with
non-negative mass never increases the mass and never drives it
negative. -/
theorem C1_ablation_mass_monotone (b : Meteor) (rho_air dt : ℝ)
    (halive : b.alive = true) (hm : 0 ≤ b.mass) :
    (b.update_ablation rho_air dt).1.mass ≤ b.mass ∧
      0 ≤ (b.update_ablation rho_air dt).1.mass := by
  unfold Meteor.update_ablation
  split
  · exact ⟨le_rfl, hm⟩
  · dsimp only
    split
    · exact ⟨hm, le_rfl⟩
    · constructor
      · apply max_le hm
        have hdm : (0 : ℝ) ≤
            max 0 (ABLATION_COEFF * b.area * rho_air * b.get_speed ^ 3 * dt) :=
          le_max_left _ _
        linarith
      · exact le_max_left _ _

/-- Closed instance of `C1_ablation_mass_monotone` on a live 10-gram
body at 100 km falling at 2 km/s. -/
theorem C1_ablation_mass_monotone_witness :
    ((Meteor.init ⟨0, 100000, 0⟩ ⟨0, -2000, 0⟩ 0.01 0.02 3000).update_ablation
        0.001 0.01).1.mass
      ≤ (Meteor.init ⟨0, 100000, 0⟩ ⟨0, -2000, 0⟩ 0.01 0.02 3000).mass ∧
    0 ≤ ((Meteor.init ⟨0, 100000, 0⟩ ⟨0, -2000, 0⟩ 0.01 0.02 3000).update_ablation
        0.001 0.01).1.mass :=
  C1_ablation_mass_monotone _ 0.001 0.01 rfl (by norm_num [Meteor.init])

/-- Claim C4: for a parent of positive mass (and a weight draw of positive
total, as `rng.random()` yields almost surely), fragmentation conserves
mass exactly: the reduced parent mass (0.55 of the original) plus the
masses of the returned children equals the original mass. -/
theorem C4_fragment_mass_conservation (p : Meteor) (n : ℕ)
    (ws uAng uSpd : Fin n → ℝ) (hm : 0 < p.mass) (hw : 0 < ∑ i, ws i) :
    (fragment_simple p n ws uAng uSpd).1.mass +
      ((fragment_simple p n ws uAng uSpd).2.map Meteor.mass).sum = p.mass := by
  unfold fragment_simple
  rw [if_neg (not_le.mpr hm)]
  dsimp only [Meteor.recompute_area]
  rw [List.map_ofFn, List.sum_ofFn]
  simp only [Function.comp_def, Meteor.init]
  have hS : (∑ j, ws j) ≠ 0 := ne_of_gt hw
  rw [← Finset.sum_mul, ← Finset.sum_div, div_self hS]
  ring

/-- Closed instance of `C4_fragment_mass_conservation`: a 1 kg parent
split five ways with unit weight draws. -/
theorem C4_fragment_mass_conservation_witness :
    (fragment_simple (Meteor.init ⟨0, 40000, 0⟩ ⟨10000, -10000, 0⟩ 1 0.04 3000)
        5 (fun _ => 1) (fun _ => 0) (fun _ => 0)).1.mass +
      ((fragment_simple (Meteor.init ⟨0, 40000, 0⟩ ⟨10000, -10000, 0⟩ 1 0.04 3000)
        5 (fun _ => 1) (fun _ => 0) (fun _ => 0)).2.map Meteor.mass).sum
      = (Meteor.init ⟨0, 40000, 0⟩ ⟨10000, -10000, 0⟩ 1 0.04 3000).mass :=
  C4_fragment_mass_conservation _ 5 _ _ _ (by norm_num [Meteor.init])
    (by simp)

/-- Claim C9: cross-section area equals `π·radius²` after every operation
that touches the radius: construction, the ablation update, and
fragmentation (both the reduced parent and every child). -/
theorem C9_area_radius_consistency :
    (∀ (p v : Vec3) (mass radius density : ℝ),
        (Meteor.init p v mass radius density).area
          = Real.pi * (Meteor.init p v mass radius density).radius ^ 2) ∧
    (∀ (b : Meteor) (rho_air dt : ℝ), b.area = Real.pi * b.radius ^ 2 →
        (b.update_ablation rho_air dt).1.area
          = Real.pi * (b.update_ablation rho_air dt).1.radius ^ 2) ∧
    (∀ (p : Meteor) (n : ℕ) (ws uAng uSpd : Fin n → ℝ),
        p.area = Real.pi * p.radius ^ 2 →
        (fragment_simple p n ws uAng uSpd).1.area
            = Real.pi * (fragment_simple p n ws uAng uSpd).1.radius ^ 2 ∧
          ∀ c ∈ (fragment_simple p n ws uAng uSpd).2,
            c.area = Real.pi * c.radius ^ 2) := by
  refine ⟨fun _ _ _ _ _ => rfl, ?_, ?_⟩
  · intro b rho_air dt hb
    unfold Meteor.update_ablation
    split
    · exact hb
    · dsimp only
      split
      · exact hb
      · rfl
  · intro p n ws uAng uSpd hp
    unfold fragment_simple
    split
    · exact ⟨hp, by intro c hc; simp at hc⟩
    · refine ⟨rfl, ?_⟩
      intro c hc
      dsimp only at hc
      rw [List.mem_ofFn] at hc
      obtain ⟨i, hi⟩ := hc
      rw [← hi]
      rfl

/-- Closed instance of `C9_area_radius_consistency`: the ablation update
and a fragmentation applied to freshly constructed bodies. -/
theorem C9_area_radius_consistency_witness :
    ((Meteor.init ⟨0, 90000, 0⟩ ⟨0, -3000, 0⟩ 0.01 0.02 3000).update_ablation
        0.0001 0.01).1.area
      = Real.pi * ((Meteor.init ⟨0, 90000, 0⟩ ⟨0, -3000, 0⟩ 0.01 0.02 3000).update_ablation
        0.0001 0.01).1.radius ^ 2 ∧
    (fragment_simple (Meteor.init ⟨0, 30000, 0⟩ ⟨8000, -8000, 0⟩ 1 0.04 3000)
        5 (fun _ => 1) (fun _ => 0) (fun _ => 0)).1.area
      = Real.pi * (fragment_simple (Meteor.init ⟨0, 30000, 0⟩ ⟨8000, -8000, 0⟩ 1 0.04 3000)
        5 (fun _ => 1) (fun _ => 0) (fun _ => 0)).1.radius ^ 2 :=
  ⟨C9_area_radius_consistency.2.1 _ 0.0001 0.01 rfl,
   (C9_area_radius_consistency.2.2 _ 5 _ _ _ rfl).1⟩


/-- In simple-gravity mode the gravitational force is `(0, −m·g, 0)`. -/
theorem gravity_simple (m : Meteor) :
    PhysicsEngine.simple.gravity_force m = ⟨0, -(m.mass * gSurf), 0⟩ := rfl

/-- Drag vanishes on a body of zero cross-section, whichever side of the
speed guard the velocity falls. -/
theorem drag_force_area_zero (atm : Atmosphere) (m : Meteor) (alt : ℝ)
    (ha : m.area = 0) : atm.drag_force m alt = Vec3.zero := by
  unfold Atmosphere.drag_force
  dsimp only
  split
  · rfl
  · rw [ha]
    ext <;> simp [Vec3.smul, Vec3.zero]

/-- On a unit-mass, zero-area body the stage derivative under simple
gravity is free fall: `[velocity, (0, −g, 0)]`. -/
theorem derivative_area_zero (m : Meteor) (atm : Atmosphere) (s : RKState)
    (hm : m.mass = 1) (ha : m.area = 0) :
    PhysicsEngine.simple.derivative s m atm = ⟨s.vel, ⟨0, -gSurf, 0⟩⟩ := by
  unfold PhysicsEngine.derivative
  dsimp only
  unfold PhysicsEngine.net_force_at
  rw [gravity_simple, drag_force_area_zero atm _ m.get_altitude (by simpa using ha)]
  refine RKState.ext_pv rfl ?_
  ext <;> simp [Vec3.add, Vec3.divs, Vec3.zero, hm]

/-- A dead body: a stationary 1 kg point (zero radius, hence zero area)
parked at 3 km altitude with its `alive` flag cleared. -/
def c3Dead : Meteor :=
  { Meteor.init ⟨0, 3000, 0⟩ ⟨0, 0, 0⟩ 1 0 3000 with alive := false }

/-- Claim C3, counterexample: `rk4_step` contains no `alive` guard: a
direct `rk4_step` call still changes the position of the dead body
`c3Dead`. -/
theorem C3_rk4_moves_dead_body :
    c3Dead.alive = false ∧
      (PhysicsEngine.simple.rk4_step c3Dead Atmosphere.std DT).pos ≠ c3Dead.pos := by
  refine ⟨rfl, fun hEq => ?_⟩
  have hy := congrArg Vec3.y hEq
  have hderiv : ∀ s : RKState,
      PhysicsEngine.simple.derivative s c3Dead Atmosphere.std
        = ⟨s.vel, ⟨0, -gSurf, 0⟩⟩ := fun s =>
    derivative_area_zero _ _ s rfl (by simp [c3Dead, Meteor.init])
  rw [PhysicsEngine.rk4_step] at hy
  simp only [hderiv, RKState.add, RKState.smul, Vec3.add, Vec3.smul] at hy
  simp only [c3Dead, Meteor.init, DT, gSurf] at hy
  norm_num at hy

/-- Claim C3, amended: dead bodies are frozen at the level at which the
program operates: the simulation loop's per-body sub-step skips a body
whose `alive` flag is false entirely (position, velocity, mass, trail
all unchanged), and the ablation update itself also refuses to touch a
dead body.  (`rk4_step` alone performs no such check, see
`C3_rk4_moves_dead_body`.) -/
theorem C3_dead_body_frozen (eng : PhysicsEngine) (atm : Atmosphere)
    (dt rho_air adt : ℝ) (m : Meteor) (hdead : m.alive = false) :
    sim_tick eng atm dt m = m ∧ m.update_ablation rho_air adt = (m, 0) := by
  constructor
  · unfold sim_tick
    rw [if_pos hdead]
  · unfold Meteor.update_ablation
    rw [if_pos (Or.inl hdead)]

/-- Closed instance of `C3_dead_body_frozen` on the dead body `c3Dead`. -/
theorem C3_dead_body_frozen_witness :
    sim_tick PhysicsEngine.simple Atmosphere.std DT c3Dead = c3Dead ∧
      c3Dead.update_ablation 1.225 DT = (c3Dead, 0) :=
  C3_dead_body_frozen PhysicsEngine.simple Atmosphere.std DT 1.225 DT c3Dead rfl

/-- A fragmentable 1 kg parent at 40 km moving at 14.1 km/s. -/
def c5Parent : Meteor := Meteor.init ⟨0, 40000, 0⟩ ⟨10000, -10000, 0⟩ 1 0.04 3000

/-- The result of fragmenting `c5Parent` once (unit weight draws, no
angular or speed jitter). -/
def c5Once : Meteor × List Meteor :=
  fragment_simple c5Parent 5 (fun _ => 1) (fun _ => 0) (fun _ => 0)

/-- The result of fragmenting the already-fragmented parent again with
the same draws. -/
def c5Twice : Meteor × List Meteor :=
  fragment_simple c5Once.1 5 (fun _ => 1) (fun _ => 0) (fun _ => 0)

/-- Claim C5, counterexample: nothing latches fragmentation per body: the
first fragmentation of `c5Parent` produces five children yet leaves the
`fragmented` flag exactly as it was, and applying `fragment_simple` to
the very same (already reduced) parent instance fragments it again —
five more children and another mass reduction. -/
theorem C5_no_per_body_latch :
    c5Once.2.length = 5 ∧ c5Once.1.fragmented = c5Parent.fragmented ∧
      c5Twice.2.length = 5 ∧ c5Twice.1.mass < c5Once.1.mass := by
  have h1 : ¬ c5Parent.mass ≤ 0 := by norm_num [c5Parent, Meteor.init]
  have hOnce : c5Once.1.mass = 0.55 ∧ c5Once.1.fragmented = c5Parent.fragmented ∧
      c5Once.2.length = 5 := by
    unfold c5Once fragment_simple
    rw [if_neg h1]
    refine ⟨?_, rfl, by simp⟩
    show c5Parent.mass * 0.55 = 0.55
    norm_num [c5Parent, Meteor.init]
  have h2 : ¬ c5Once.1.mass ≤ 0 := by rw [hOnce.1]; norm_num
  have hTwice : c5Twice.1.mass = c5Once.1.mass * 0.55 ∧ c5Twice.2.length = 5 := by
    unfold c5Twice fragment_simple
    rw [if_neg h2]
    exact ⟨rfl, by simp⟩
  refine ⟨hOnce.2.2, hOnce.2.1, hTwice.2, ?_⟩
  rw [hTwice.1, hOnce.1]
  norm_num

/-- Claim C5, amended: re-fragmentation is prevented not by a per-body
latch but by the run-level `fragment_done` flag of `run_simulation`:
once the policy has fired the flag stays set, so over any sequence of
trigger conditions the fragmentation block executes at most once per
run, and never from an already-set flag. -/
theorem C5_run_level_once (conds : List Bool) :
    frag_fire_count true conds = 0 ∧ ∀ d : Bool, frag_fire_count d conds ≤ 1 := by
  induction conds with
  | nil => exact ⟨rfl, fun d => Nat.zero_le 1⟩
  | cons c rest ih =>
    have htrue : frag_fire_count true (c :: rest) = 0 := by
      unfold frag_fire_count frag_trigger_step
      simpa using ih.1
    refine ⟨htrue, fun d => ?_⟩
    cases d with
    | true => rw [htrue]; exact Nat.zero_le 1
    | false =>
      unfold frag_fire_count frag_trigger_step
      cases c with
      | true => simpa using Nat.le_of_eq ih.1
      | false => simpa using ih.2 false

/-- What claim C2 (and `physics.py`'s own comments, "Calculate forces at
this state") assert the stage derivative to be: the identical force law,
but with the altitude — hence the air density used for drag — taken from
the candidate state's own position rather than from the pre-step body. -/
def derivative_claimed (eng : PhysicsEngine) (state : RKState) (m : Meteor)
    (atm : Atmosphere) : RKState :=
  let temp : Meteor := { m with pos := state.pos, vel := state.vel }
  let F := eng.net_force_at temp atm temp.get_altitude
  let accel := Vec3.divs F m.mass
  ⟨state.vel, accel⟩

/-- Drag on a body moving straight down at no less than 1 m/s: magnitude
`½·ρ·vy²·Cd·A`, pointing straight up. -/
theorem drag_force_vert (atm : Atmosphere) (m : Meteor) (alt vy : ℝ)
    (hv : m.vel = ⟨0, vy, 0⟩) (hvy : vy ≤ -1) :
    atm.drag_force m alt =
      ⟨0, 0.5 * atm.density alt * vy ^ 2 * DRAG_COEFFICIENT * m.area, 0⟩ := by
  have hvy0 : vy < 0 := lt_of_le_of_lt hvy (by norm_num)
  have hnorm : m.vel.norm = -vy := by
    rw [hv, Vec3.norm_vert, abs_of_neg hvy0]
  unfold Atmosphere.drag_force
  dsimp only
  rw [if_neg (by rw [hnorm]; norm_num; linarith)]
  rw [hv] at hnorm ⊢
  rw [hnorm]
  have hne : -vy ≠ 0 := by linarith
  ext <;> simp [Vec3.smul, Vec3.divs, Vec3.neg]
  rw [div_self (ne_of_lt hvy0), mul_one]

/-- The stage derivative the source computes on a vertically falling
unit-mass body: gravity plus drag, the drag density evaluated at the
PRE-STEP altitude `m.pos.y`. -/
theorem derivative_vert (atm : Atmosphere) (m : Meteor) (s : RKState) (vy : ℝ)
    (hm : m.mass = 1) (hsv : s.vel = ⟨0, vy, 0⟩) (hvy : vy ≤ -1) :
    PhysicsEngine.simple.derivative s m atm =
      ⟨s.vel,
        ⟨0, -gSurf + 0.5 * atm.density m.pos.y * vy ^ 2 * DRAG_COEFFICIENT * m.area, 0⟩⟩ := by
  unfold PhysicsEngine.derivative
  dsimp only
  unfold PhysicsEngine.net_force_at
  rw [gravity_simple,
    drag_force_vert atm _ m.get_altitude vy (by simpa using hsv) hvy]
  refine RKState.ext_pv rfl ?_
  unfold Meteor.get_altitude
  ext <;> simp [Vec3.add, Vec3.divs, hm]

/-- The stage derivative claim C2 asserts, on the same body: identical
except that the drag density is evaluated at the candidate altitude
`s.pos.y`. -/
theorem derivative_claimed_vert (atm : Atmosphere) (m : Meteor) (s : RKState)
    (vy : ℝ) (hm : m.mass = 1) (hsv : s.vel = ⟨0, vy, 0⟩) (hvy : vy ≤ -1) :
    derivative_claimed PhysicsEngine.simple s m atm =
      ⟨s.vel,
        ⟨0, -gSurf + 0.5 * atm.density s.pos.y * vy ^ 2 * DRAG_COEFFICIENT * m.area, 0⟩⟩ := by
  unfold derivative_claimed
  dsimp only
  unfold PhysicsEngine.net_force_at
  rw [gravity_simple,
    drag_force_vert atm _ _ vy (by simpa using hsv) hvy]
  refine RKState.ext_pv rfl ?_
  unfold Meteor.get_altitude
  ext <;> simp [Vec3.add, Vec3.divs, hm]

/-- The C2 failing input: a 1 kg body of radius 0.02 m at one scale
height (8500 m), falling straight down at 100 m/s. -/
def c2Body : Meteor := Meteor.init ⟨0, 8500, 0⟩ ⟨0, -100, 0⟩ 1 0.02 3000

/-- The packed pre-step state of `c2Body`, as `rk4_step` builds it. -/
def c2s : RKState := ⟨c2Body.pos, c2Body.vel⟩

/-- Stage slope `k1` of `rk4_step` on `c2Body`. -/
def c2k1 : RKState := PhysicsEngine.simple.derivative c2s c2Body Atmosphere.std

/-- The stage-2 candidate state `state + k1·dt/2` of `rk4_step` on
`c2Body` with the code's own timestep `DT`. -/
def c2s2 : RKState := c2s.add (c2k1.smul (DT / 2))

/-- Claim C2: at the concrete input `c2Body` the stage-2 slope `k2`
computed inside `rk4_step` differs from what the claim asserts: the
code evaluates the drag air density at the pre-step altitude 8500 m
(through the stale `get_altitude` binding), while the claim requires
the candidate altitude 8499.5 m, and the two densities differ. -/
theorem C2_stage_density_stale :
    PhysicsEngine.simple.derivative c2s2 c2Body Atmosphere.std
      ≠ derivative_claimed PhysicsEngine.simple c2s2 c2Body Atmosphere.std := by
  have harea : c2Body.area = Real.pi * 0.02 ^ 2 := rfl
  have hApos : 0 < c2Body.area := by rw [harea]; positivity
  have hAle : c2Body.area ≤ 0.0016 := by
    rw [harea]
    nlinarith [Real.pi_le_four]
  have hrho1 : Atmosphere.std.density c2Body.pos.y = 1.225 * Real.exp (-1) := by
    show Atmosphere.std.density 8500 = _
    unfold Atmosphere.density Atmosphere.std RHO_0 H_SCALE
    rw [if_neg (by norm_num)]
    norm_num
  have hexp_pos : (0 : ℝ) < Real.exp (-1) := Real.exp_pos _
  have hexp_le : Real.exp (-1) ≤ 1 := Real.exp_le_one_iff.mpr (by norm_num)
  have hrho1_pos : 0 < Atmosphere.std.density c2Body.pos.y := by
    rw [hrho1]; positivity
  have hrho1_le : Atmosphere.std.density c2Body.pos.y ≤ 1.225 := by
    rw [hrho1]; nlinarith
  have hsv : c2s.vel = ⟨0, -100, 0⟩ := rfl
  have hk1 := derivative_vert Atmosphere.std c2Body c2s (-100) rfl hsv (by norm_num)
  set a1 : ℝ := -gSurf + 0.5 * Atmosphere.std.density c2Body.pos.y * (-100 : ℝ) ^ 2 *
      DRAG_COEFFICIENT * c2Body.area with ha1
  have ha1_neg : a1 < 0 := by
    rw [ha1]; unfold gSurf DRAG_COEFFICIENT
    nlinarith [hrho1_le, hrho1_pos, hAle, hApos]
  have ha1_lb : -9.81 ≤ a1 := by
    rw [ha1]; unfold gSurf DRAG_COEFFICIENT
    nlinarith [hrho1_pos, hApos]
  have hs2v : c2s2.vel = ⟨0, -100 + DT / 2 * a1, 0⟩ := by
    unfold c2s2 c2k1
    rw [hk1]
    ext <;> simp [RKState.add, RKState.smul, Vec3.add, Vec3.smul, hsv]
  have hs2p : c2s2.pos.y = 8499.5 := by
    unfold c2s2 c2k1
    rw [hk1]
    simp [RKState.add, RKState.smul, Vec3.add, Vec3.smul, c2s, c2Body,
      Meteor.init, DT]
    norm_num
  set vy2 : ℝ := -100 + DT / 2 * a1 with hvy2def
  have hvy2 : vy2 ≤ -1 := by
    rw [hvy2def]; unfold DT
    have hstep : (1e-2 : ℝ) / 2 * a1 ≤ 0 :=
      mul_nonpos_iff.mpr (Or.inl ⟨by norm_num, ha1_neg.le⟩)
    linarith
  have hvy2sq : (0 : ℝ) < vy2 ^ 2 := by nlinarith [hvy2]
  intro hEq
  rw [derivative_vert Atmosphere.std c2Body c2s2 vy2 rfl hs2v hvy2,
    derivative_claimed_vert Atmosphere.std c2Body c2s2 vy2 rfl hs2v hvy2] at hEq
  have hyy := congrArg (fun st : RKState => st.vel.y) hEq
  simp only at hyy
  rw [hs2p, hrho1] at hyy
  have hrho2 : Atmosphere.std.density 8499.5 = 1.225 * Real.exp (-(8499.5 / 8500)) := by
    unfold Atmosphere.density Atmosphere.std RHO_0 H_SCALE
    rw [if_neg (by norm_num)]
    norm_num
  rw [hrho2] at hyy
  have hX := add_left_cancel hyy
  have hC : (0.5 * 1.225 * vy2 ^ 2 * DRAG_COEFFICIENT * c2Body.area) ≠ 0 := by
    unfold DRAG_COEFFICIENT
    positivity
  have hEexp : (0.5 * 1.225 * vy2 ^ 2 * DRAG_COEFFICIENT * c2Body.area) * Real.exp (-1)
      = (0.5 * 1.225 * vy2 ^ 2 * DRAG_COEFFICIENT * c2Body.area) *
        Real.exp (-(8499.5 / 8500)) := by
    linear_combination hX
  have := Real.exp_eq_exp.mp (mul_left_cancel₀ hC hEexp)
  norm_num at this

/-- Claim C7: `drag_force` for the standard atmosphere is total with a
guarded division: below the `1e-6` m/s speed guard it returns the zero
vector; at or above it, it returns the magnitude
`½·ρ(altitude)·|v|²·Cd·A` times the vector exactly opposite the velocity
unit vector, and (for the physical case of non-negative area) its norm
is exactly that magnitude. -/
theorem C7_drag_guard (m : Meteor) (alt : ℝ) :
    (m.vel.norm < 1e-6 → Atmosphere.std.drag_force m alt = Vec3.zero) ∧
    (1e-6 ≤ m.vel.norm →
      Atmosphere.std.drag_force m alt =
        Vec3.smul (0.5 * Atmosphere.std.density alt * m.vel.norm ^ 2 *
          DRAG_COEFFICIENT * m.area) (Vec3.divs m.vel.neg m.vel.norm) ∧
      (0 ≤ m.area →
        (Atmosphere.std.drag_force m alt).norm =
          0.5 * Atmosphere.std.density alt * m.vel.norm ^ 2 *
            DRAG_COEFFICIENT * m.area)) := by
  constructor
  · intro hslow
    unfold Atmosphere.drag_force
    dsimp only
    rw [if_pos hslow]
  · intro hfast
    have heq : Atmosphere.std.drag_force m alt =
        Vec3.smul (0.5 * Atmosphere.std.density alt * m.vel.norm ^ 2 *
          DRAG_COEFFICIENT * m.area) (Vec3.divs m.vel.neg m.vel.norm) := by
      unfold Atmosphere.drag_force
      dsimp only
      rw [if_neg (not_lt.mpr hfast)]
    refine ⟨heq, fun hA => ?_⟩
    rw [heq, Vec3.norm_smul]
    have hnpos : 0 < m.vel.norm := lt_of_lt_of_le (by norm_num) hfast
    have hne : m.vel.norm ≠ 0 := ne_of_gt hnpos
    have hdivs_smul : Vec3.divs m.vel.neg m.vel.norm
        = Vec3.smul (1 / m.vel.norm) m.vel.neg := by
      ext <;> simp [Vec3.divs, Vec3.smul, Vec3.neg] <;> ring
    have hnneg : m.vel.neg.norm = m.vel.norm := by
      unfold Vec3.neg Vec3.norm
      dsimp only
      rw [show (-m.vel.x) ^ 2 + (-m.vel.y) ^ 2 + (-m.vel.z) ^ 2
        = m.vel.x ^ 2 + m.vel.y ^ 2 + m.vel.z ^ 2 by ring]
    have hdir : (Vec3.divs m.vel.neg m.vel.norm).norm = 1 := by
      rw [hdivs_smul, Vec3.norm_smul, hnneg,
        abs_of_pos (one_div_pos.mpr hnpos)]
      field_simp
    rw [hdir, mul_one]
    have hrho := Atmosphere.density_std_pos alt
    have hmagnn : 0 ≤ 0.5 * Atmosphere.std.density alt * m.vel.norm ^ 2 *
        DRAG_COEFFICIENT * m.area :=
      mul_nonneg (mul_nonneg (mul_nonneg (mul_nonneg (by norm_num) hrho.le)
        (sq_nonneg _)) (by unfold DRAG_COEFFICIENT; norm_num)) hA
    rw [abs_of_nonneg hmagnn]

/-- A stationary body (zero velocity), for the slow side of the drag
guard. -/
def c7Slow : Meteor := Meteor.init ⟨0, 50000, 0⟩ ⟨0, 0, 0⟩ 0.01 0.02 3000

/-- A body moving at 5 m/s, for the fast side of the drag guard. -/
def c7Fast : Meteor := Meteor.init ⟨0, 1000, 0⟩ ⟨3, 4, 0⟩ 0.01 0.02 3000

/-- Closed instance of `C7_drag_guard` at a stationary and a moving
body. -/
theorem C7_drag_guard_witness :
    Atmosphere.std.drag_force c7Slow 50000 = Vec3.zero ∧
    (Atmosphere.std.drag_force c7Fast 1000).norm =
      0.5 * Atmosphere.std.density 1000 * c7Fast.vel.norm ^ 2 *
        DRAG_COEFFICIENT * c7Fast.area :=
  ⟨(C7_drag_guard c7Slow 50000).1 (by
      show Vec3.norm ⟨0, 0, 0⟩ < 1e-6
      unfold Vec3.norm
      rw [show (0 : ℝ) ^ 2 + 0 ^ 2 + 0 ^ 2 = 0 by norm_num, Real.sqrt_zero]
      norm_num),
   ((C7_drag_guard c7Fast 1000).2 (by
      show (1e-6 : ℝ) ≤ Vec3.norm ⟨3, 4, 0⟩
      unfold Vec3.norm
      rw [show (3 : ℝ) ^ 2 + 4 ^ 2 + 0 ^ 2 = 5 ^ 2 by norm_num,
        Real.sqrt_sq (by norm_num)]
      norm_num)).2 (by
      show (0 : ℝ) ≤ Real.pi * 0.02 ^ 2
      positivity)⟩
